import Mathlib

/-!
Shallow embedding of the Site Registry and Connectivity Verification
subsystem of the tikgen repository, with theorems checking the
natural-language specification against the code.

Sources embedded:
- src/app/src/utils/wordpress/sites/route.ts (GET, POST, DELETE handlers)
- src/app/src/utils/wordpress/test-connection/route.ts (POST handler)
- src/app/src/gui/WordPressManager.tsx (addSite, removeSite client flows)

File-system reads are modelled as an explicit value of type
Except String Config (reading and parsing config.json either yields the
parsed document or fails), and each route handler is a pure function of
that value and the request body. The document written back by a handler
is returned explicitly as an Option Config (none when the handler does
not write).
-/

namespace TikGen

/-- A WordPress site record, as declared by the client component
(interface WordPressSite in WordPressManager.tsx) and persisted in the
config document under the wordpress_sites key. -/
structure WordPressSite where
  url : String
  username : String
  password : String
  category : String
  post_interval : String
  max_posts_per_day : String
  is_connected : Option Bool := none
  last_post : Option String := none
  next_post : Option String := none
deriving DecidableEq

/-- A JSON value, used for the opaque unrelated keys of the config
document and for the JSON bodies built by the test-connection route. -/
inductive JVal where
  | str (s : String)
  | num (n : Int)
  | bool (b : Bool)
  | null
deriving DecidableEq

/-- The persisted config document: the wordpress_sites collection
(absent when the key is missing) together with the other top-level
keys, which the registry routes must not disturb. -/
structure Config where
  wordpress_sites : Option (List WordPressSite) := none
  other : List (String × JVal) := []
deriving DecidableEq

/-- Response of the GET handler of the sites route: a 200 JSON array of
site records, or an error body with a status code. -/
inductive SitesGetResponse where
  | ok (sites : List WordPressSite)
  | err (error : String) (status : Nat)
deriving DecidableEq

/-- Acknowledgement response of the POST and DELETE handlers of the
sites route: a 200 body with success set to true, or an error body with
a status code. -/
inductive AckResponse where
  | ok
  | err (error : String) (status : Nat)
deriving DecidableEq

/-- GET handler of src/app/src/utils/wordpress/sites/route.ts: reads
the config document and returns config.wordpress_sites or an empty
array when the key is absent; on a failed read it returns a 500 error
body. -/
def GET (store : Except String Config) : SitesGetResponse :=
  match store with
  | .ok config => .ok (config.wordpress_sites.getD [])
  | .error _ => .err "Failed to load WordPress sites" 500

/-- The in-memory collection update of the POST handler: findIndex on
url equality, assignment at the found index, otherwise push at the
end. -/
def upsertSites (sites : List WordPressSite) (site : WordPressSite) : List WordPressSite :=
  match sites.findIdx? (fun s => s.url == site.url) with
  | some existingIndex => sites.set existingIndex site
  | none => sites ++ [site]

/-- POST handler of src/app/src/utils/wordpress/sites/route.ts: reads
the config document, defaults a missing wordpress_sites key to an empty
array, upserts the request body by url, and writes the updated document
back. The written document is the second component; on a failed read
nothing is written and a 500 error body is returned. -/
def POST (store : Except String Config) (site : WordPressSite) :
    AckResponse × Option Config :=
  match store with
  | .error _ => (.err "Failed to save WordPress site" 500, none)
  | .ok config =>
      let sites := config.wordpress_sites.getD []
      (.ok, some { config with wordpress_sites := some (upsertSites sites site) })

/-- DELETE handler of src/app/src/utils/wordpress/sites/route.ts: reads
the config document and, when the wordpress_sites key is present,
filters out every record whose url equals the request url and writes
the document back; it answers success even when nothing matched or the
key was absent. -/
def DELETE (store : Except String Config) (url : String) :
    AckResponse × Option Config :=
  match store with
  | .error _ => (.err "Failed to delete WordPress site" 500, none)
  | .ok config =>
      match config.wordpress_sites with
      | some sites =>
          (.ok, some { config with
            wordpress_sites := some (sites.filter (fun site => site.url != url)) })
      | none => (.ok, none)

/-- One post item of the WordPress listing response, keeping only the
field the route reads (its date, possibly absent). -/
structure WpPost where
  date : Option String := none
deriving DecidableEq

/-- A successful axios response from the WordPress posts endpoint: the
x-wp-total response header (absent when the server did not send it) and
the JSON array of posts. -/
structure WpListingResponse where
  xWpTotal : Option String := none
  data : List WpPost := []
deriving DecidableEq

/-- The ways the axios request of the test-connection route can fail:
unreachable host, exceeded 5000 ms timeout, authentication failure, or
a non-success HTTP status (axios throws on all of these). -/
inductive ConnectFailure where
  | network
  | timeout
  | auth
  | httpStatus
deriving DecidableEq

/-- Outcome of the awaited axios request inside the test-connection
route: either a successful response or a thrown failure of some kind. -/
inductive ProbeOutcome where
  | success (response : WpListingResponse)
  | failure (kind : ConnectFailure)
deriving DecidableEq

/-- JavaScript coalescing of a possibly-absent string against null, as
in the expression that reads the most recent post date: an absent or
empty (falsy) string becomes null. -/
def jsOrNullStr : Option String → JVal
  | some s => if s = "" then .null else .str s
  | none => .null

/-- POST handler of src/app/src/utils/wordpress/test-connection/route.ts
as a function of the outcome of its single axios request. On success it
returns a 200 JSON body with connected set to true, a version key
holding the x-wp-total header (dropped by JSON serialization when the
header is absent), and a last_post key holding the date of the first
listed post or null. On any thrown failure the catch block returns a
500 body with connected set to false and one generic error message. -/
def testConnectionPOST (outcome : ProbeOutcome) : List (String × JVal) × Nat :=
  match outcome with
  | .success response =>
      ([("connected", JVal.bool true)] ++
        (match response.xWpTotal with
          | some total => [("version", JVal.str total)]
          | none => []) ++
        [("last_post", jsOrNullStr (response.data.head?.bind WpPost.date))], 200)
  | .failure _ =>
      ([("connected", JVal.bool false),
        ("error", JVal.str "Failed to connect to WordPress site")], 500)

/-- An HTTP call the client component can issue from its flows. -/
inductive ApiCall where
  | getSites
  | postSite (site : WordPressSite)
  | deleteSite (url : String)
  | testConnection (site : WordPressSite)
deriving DecidableEq

/-- A toast notification surfaced by the client component. -/
inductive Toast where
  | success (message : String)
  | error (message : String)
deriving DecidableEq

/-- The blank form value the addSite flow resets to
(WordPressManager.tsx, the setNewSite call after a successful add). -/
def defaultNewSite : WordPressSite :=
  { url := "", username := "", password := "", category := "technology",
    post_interval := "6", max_posts_per_day := "4" }

/-- The component state of WordPressManager: the in-memory sites list
and the new-site form value. -/
structure ManagerState where
  sites : List WordPressSite
  newSite : WordPressSite
deriving DecidableEq

/-- The observable result of one client flow: the new component state,
the HTTP calls issued, and the toasts shown. -/
structure StepResult where
  state : ManagerState
  calls : List ApiCall
  toasts : List Toast
deriving DecidableEq

/-- The addSite flow of WordPressManager.tsx. When url, username or
password is empty (falsy) it shows a validation error and returns
without any call. Otherwise it calls the test-connection endpoint
(modelled by the probe oracle, since testConnection itself catches
failures and returns a boolean), appends the candidate merged with the
probe flag to the in-memory list, and resets the form. -/
def addSite (st : ManagerState) (probe : WordPressSite → Bool) : StepResult :=
  if st.newSite.url == "" || st.newSite.username == "" || st.newSite.password == "" then
    { state := st, calls := [], toasts := [.error "Please fill in all required fields"] }
  else
    let isConnected := probe st.newSite
    let updatedSites := st.sites ++ [{ st.newSite with is_connected := some isConnected }]
    { state := { sites := updatedSites, newSite := defaultNewSite },
      calls := [.testConnection st.newSite],
      toasts := [.success "WordPress site added successfully"] }

/-- The removeSite flow of WordPressManager.tsx: filters the in-memory
list by url and shows a success toast; it issues no HTTP call. -/
def removeSite (st : ManagerState) (url : String) : StepResult :=
  { state := { st with sites := st.sites.filter (fun site => site.url != url) },
    calls := [],
    toasts := [.success "WordPress site removed successfully"] }

/-- Whether a call is to one of the registry persistence endpoints
(POST or DELETE of the sites route). -/
def isRegistryCall : ApiCall → Bool
  | .postSite _ => true
  | .deleteSite _ => true
  | .getSites => false
  | .testConnection _ => false

/-- Effect of one client HTTP call on the persisted document: the
registry POST and DELETE apply their handlers and keep the written
document; the other calls never write. -/
def applyCall (config : Config) : ApiCall → Config
  | .postSite site => ((POST (.ok config) site).snd).getD config
  | .deleteSite url => ((DELETE (.ok config) url).snd).getD config
  | .getSites => config
  | .testConnection _ => config

/-- Effect of a sequence of client HTTP calls on the persisted
document. -/
def applyCalls (config : Config) (calls : List ApiCall) : Config :=
  calls.foldl applyCall config

/-! ### Helper lemmas about the upsert of the sites POST handler -/

theorem upsertSites_nil (site : WordPressSite) : upsertSites [] site = [site] := rfl

theorem upsertSites_cons (s : WordPressSite) (rest : List WordPressSite)
    (site : WordPressSite) :
    upsertSites (s :: rest) site =
      if s.url == site.url then site :: rest else s :: upsertSites rest site := by
  unfold upsertSites
  rw [List.findIdx?_cons, List.findIdx?_succ]
  by_cases h : s.url == site.url
  · simp [h]
  · cases hfind : rest.findIdx? (fun x => x.url == site.url) with
    | none => simp [h, hfind]
    | some i => simp [h, hfind]

theorem upsertSites_of_not_mem (sites : List WordPressSite) (site : WordPressSite)
    (h : ∀ s ∈ sites, s.url ≠ site.url) :
    upsertSites sites site = sites ++ [site] := by
  unfold upsertSites
  have hnone : sites.findIdx? (fun s => s.url == site.url) = none := by
    rw [List.findIdx?_eq_none_iff]
    intro s hs
    simpa using h s hs
  rw [hnone]

theorem upsertSites_of_found (sites : List WordPressSite) (site : WordPressSite)
    (i : Nat) (h : sites.findIdx? (fun s => s.url == site.url) = some i) :
    (upsertSites sites site).length = sites.length ∧
      (upsertSites sites site)[i]? = some site ∧
      ∀ j, j ≠ i → (upsertSites sites site)[j]? = sites[j]? := by
  have hi : i < sites.length := (List.findIdx?_eq_some_iff_getElem.mp h).1
  unfold upsertSites
  rw [h]
  refine ⟨List.length_set .., List.getElem?_set_self hi, ?_⟩
  intro j hj
  exact List.getElem?_set_ne (Ne.symm hj)

theorem upsertSites_countP (sites : List WordPressSite) (site : WordPressSite)
    (h : sites.countP (fun s => s.url == site.url) ≤ 1) :
    (upsertSites sites site).countP (fun s => s.url == site.url) = 1 := by
  induction sites with
  | nil => simp [upsertSites_nil]
  | cons s rest ih =>
    rw [upsertSites_cons]
    by_cases hs : s.url == site.url
    · rw [if_pos hs]
      have hrest : rest.countP (fun x => x.url == site.url) = 0 := by
        rw [List.countP_cons, if_pos hs] at h
        omega
      simp [List.countP_cons, hrest]
    · rw [if_neg hs]
      have hle : rest.countP (fun x => x.url == site.url) ≤ 1 := by
        rw [List.countP_cons, if_neg hs] at h
        omega
      rw [List.countP_cons, if_neg hs, ih hle]

/-! ### Concrete records used by counterexamples and witnesses -/

/-- A concrete site record used in counterexamples and witnesses. -/
def siteA : WordPressSite :=
  { url := "https://a.example", username := "admin", password := "x",
    category := "tech", post_interval := "6", max_posts_per_day := "4" }

/-- A second concrete site record with a distinct url. -/
def siteB : WordPressSite :=
  { url := "https://b.example", username := "editor", password := "y",
    category := "news", post_interval := "12", max_posts_per_day := "2" }

/-! ### Claim C1 -/

/-- Claim C1 (amended): for every document, POST of the sites route with
a url already present replaces the first record carrying that url in
place at the same position, leaving every other position and the
collection length unchanged; with a url not present the record is
appended at the end. After an upsert into a collection that contained
at most one record with that url, exactly one record with that url
exists; an upsert does not deduplicate a collection that already
contained several records with that url. -/
theorem upsert_replaces_first_or_appends (cfg cfg2 : Config) (site : WordPressSite)
    (sites2 : List WordPressSite)
    (hpost : POST (.ok cfg) site = (.ok, some cfg2))
    (hsites2 : cfg2.wordpress_sites = some sites2) :
    ((∀ s ∈ cfg.wordpress_sites.getD [], s.url ≠ site.url) →
      sites2 = cfg.wordpress_sites.getD [] ++ [site]) ∧
    ((∃ s ∈ cfg.wordpress_sites.getD [], s.url = site.url) →
      sites2.length = (cfg.wordpress_sites.getD []).length) ∧
    (∀ i, (cfg.wordpress_sites.getD []).findIdx? (fun s => s.url == site.url) = some i →
      sites2[i]? = some site ∧
      ∀ j, j ≠ i → sites2[j]? = (cfg.wordpress_sites.getD [])[j]?) ∧
    ((cfg.wordpress_sites.getD []).countP (fun s => s.url == site.url) ≤ 1 →
      sites2.countP (fun s => s.url == site.url) = 1) := by
  simp only [POST] at hpost
  obtain ⟨-, hcfg2⟩ := Prod.mk.injEq .. ▸ hpost
  rw [Option.some.injEq] at hcfg2
  subst hcfg2
  rw [Option.some.injEq] at hsites2
  subst hsites2
  refine ⟨fun h => upsertSites_of_not_mem _ _ h, fun h => ?_, fun i hi => ?_,
    fun h => upsertSites_countP _ _ h⟩
  · obtain ⟨s, hs, hurl⟩ := h
    have hfind := List.findIdx?_eq_some_of_exists
      (p := fun x => x.url == site.url) ⟨s, hs, by simpa using hurl⟩
    exact (upsertSites_of_found _ _ _ hfind).1
  · exact (upsertSites_of_found _ _ _ hi).2

/-- Claim C1 witness: instantiates the amended upsert theorem on a
document holding exactly the record siteA, upserting siteB: siteB is
appended and appears exactly once. -/
theorem upsert_replaces_first_or_appends_witness :
    (POST (.ok { wordpress_sites := some [siteA], other := [] }) siteB).snd =
      some { wordpress_sites := some [siteA, siteB], other := [] } ∧
    [siteA, siteB] = [siteA] ++ [siteB] ∧
    ([siteA, siteB] : List WordPressSite).countP (fun s => s.url == siteB.url) = 1 := by
  have h := upsert_replaces_first_or_appends
    { wordpress_sites := some [siteA], other := [] }
    { wordpress_sites := some [siteA, siteB], other := [] }
    siteB [siteA, siteB] (by decide) (by decide)
  exact ⟨by decide, h.1 (by decide), h.2.2.2 (by decide)⟩

/-- Claim C1 counterexample: on a document whose collection already
holds two records with the url of siteA, upserting a record with that
url leaves two records with that url in the written collection, so "at
most one record with that url exists after any upsert" fails. -/
theorem upsert_duplicate_url_counterexample :
    (POST (.ok { wordpress_sites := some [siteA, siteA], other := [] }) siteA).fst =
      AckResponse.ok ∧
    ((POST (.ok { wordpress_sites := some [siteA, siteA], other := [] }) siteA).snd.map
      fun c => (c.wordpress_sites.getD []).countP (fun s => s.url == siteA.url)) =
      some 2 := by
  decide

/-! ### Claim C3 -/

/-- Claim C3: every successful upsert (POST) and delete (DELETE) of the
sites route writes back a document in which all top-level keys other
than wordpress_sites are unmodified. -/
theorem routes_preserve_other_keys (cfg cfg2 : Config) (site : WordPressSite)
    (url : String) :
    ((POST (.ok cfg) site).snd = some cfg2 → cfg2.other = cfg.other) ∧
    ((DELETE (.ok cfg) url).snd = some cfg2 → cfg2.other = cfg.other) := by
  constructor
  · intro h
    simp only [POST, Option.some.injEq] at h
    subst h
    rfl
  · intro h
    cases hws : cfg.wordpress_sites with
    | none => simp [DELETE, hws] at h
    | some sites =>
        simp only [DELETE, hws, Option.some.injEq] at h
        subst h
        rfl

/-- Claim C3 witness: upserting siteB into a document carrying an
unrelated theme key preserves that key. -/
theorem routes_preserve_other_keys_witness :
    ({ wordpress_sites := some [siteA, siteB],
        other := [("theme", JVal.str "dark")] } : Config).other =
      ({ wordpress_sites := some [siteA],
          other := [("theme", JVal.str "dark")] } : Config).other := by
  exact (routes_preserve_other_keys
    { wordpress_sites := some [siteA], other := [("theme", JVal.str "dark")] }
    { wordpress_sites := some [siteA, siteB], other := [("theme", JVal.str "dark")] }
    siteB "https://missing.example").1 (by decide)

/-! ### Claim C4 -/

/-- Claim C4: DELETE of the sites route always reports success; when it
writes back a collection, that collection holds no record with the
requested url, is a subsequence of the stored collection, keeps every
non-matching record, and equals the stored collection when nothing
matched; when the wordpress_sites key is absent nothing is written. -/
theorem delete_removes_matching (cfg : Config) (url : String) :
    (DELETE (.ok cfg) url).fst = AckResponse.ok ∧
    (∀ cfg2 sites2, (DELETE (.ok cfg) url).snd = some cfg2 →
      cfg2.wordpress_sites = some sites2 →
      (∀ s ∈ sites2, s.url ≠ url) ∧
      sites2.Sublist (cfg.wordpress_sites.getD []) ∧
      (∀ s ∈ cfg.wordpress_sites.getD [], s.url ≠ url → s ∈ sites2) ∧
      ((∀ s ∈ cfg.wordpress_sites.getD [], s.url ≠ url) →
        sites2 = cfg.wordpress_sites.getD [])) ∧
    (cfg.wordpress_sites = none → (DELETE (.ok cfg) url).snd = none) := by
  refine ⟨?_, ?_, ?_⟩
  · cases hws : cfg.wordpress_sites <;> simp [DELETE, hws]
  · intro cfg2 sites2 hdel hsites2
    cases hws : cfg.wordpress_sites with
    | none => simp [DELETE, hws] at hdel
    | some sites =>
        simp only [DELETE, hws, Option.some.injEq] at hdel
        subst hdel
        rw [Option.some.injEq] at hsites2
        subst hsites2
        refine ⟨?_, ?_, ?_, ?_⟩
        · intro s hs
          have := List.of_mem_filter hs
          simpa using this
        · simp only [Option.getD_some]
          exact List.filter_sublist sites
        · intro s hs hurl
          simp only [Option.getD_some] at hs
          exact List.mem_filter.mpr ⟨hs, by simpa using hurl⟩
        · intro hnone
          simp only [Option.getD_some] at hnone ⊢
          exact List.filter_eq_self.mpr fun s hs => by simpa using hnone s hs
  · intro hws
    simp [DELETE, hws]

/-- Claim C4 witness: deleting a missing url from a store holding one
unrelated record leaves the written collection equal to the stored one
and reports success. -/
theorem delete_removes_matching_witness :
    (DELETE (.ok { wordpress_sites := some [siteA], other := [] })
      "https://missing.example").fst = AckResponse.ok ∧
    ([siteA] : List WordPressSite) =
      ({ wordpress_sites := some [siteA], other := [] } : Config).wordpress_sites.getD [] := by
  have h := delete_removes_matching
    { wordpress_sites := some [siteA], other := [] } "https://missing.example"
  refine ⟨h.1, ?_⟩
  have h2 := h.2.1 { wordpress_sites := some [siteA], other := [] } [siteA]
    (by decide) (by decide)
  exact h2.2.2.2 (by decide)

/-! ### Claim C5 -/

/-- Claim C5: GET of the sites route returns the stored wordpress_sites
collection as stored, an empty array when the key is absent, and a 500
error body exactly when the store read fails. -/
theorem list_sites_behavior (cfg : Config) (sites : List WordPressSite) (msg : String) :
    (cfg.wordpress_sites = some sites → GET (.ok cfg) = .ok sites) ∧
    (cfg.wordpress_sites = none → GET (.ok cfg) = .ok []) ∧
    GET (.error msg) = .err "Failed to load WordPress sites" 500 := by
  refine ⟨fun h => by simp [GET, h], fun h => by simp [GET, h], rfl⟩

/-- Claim C5 witness: GET on a document storing exactly siteA returns
that collection, GET on a document lacking the key returns the empty
collection, and GET on a failed read returns the 500 error body. -/
theorem list_sites_behavior_witness :
    GET (.ok { wordpress_sites := some [siteA], other := [] }) = .ok [siteA] ∧
    GET (.ok { wordpress_sites := none, other := [] }) = .ok [] ∧
    GET (.error "ENOENT") = .err "Failed to load WordPress sites" 500 := by
  refine ⟨?_, ?_, ?_⟩
  · exact (list_sites_behavior { wordpress_sites := some [siteA], other := [] }
      [siteA] "ENOENT").1 rfl
  · exact (list_sites_behavior { wordpress_sites := none, other := [] }
      [] "ENOENT").2.1 rfl
  · exact (list_sites_behavior { wordpress_sites := none, other := [] }
      [] "ENOENT").2.2

/-! ### Claim C7 -/

/-- Claim C7: starting from a document whose collection is empty,
upserting A then B with distinct urls and then listing yields exactly
the collection holding A then B, so both are present in insertion
order. -/
theorem upsert_two_insertion_order (A B : WordPressSite) (cfg : Config)
    (hfresh : cfg.wordpress_sites.getD [] = [])
    (hne : A.url ≠ B.url) :
    ∃ cfg1 cfg2,
      POST (.ok cfg) A = (.ok, some cfg1) ∧
      POST (.ok cfg1) B = (.ok, some cfg2) ∧
      GET (.ok cfg2) = .ok [A, B] := by
  refine ⟨_, _, rfl, rfl, ?_⟩
  simp [GET, POST, hfresh, upsertSites_nil, upsertSites_cons, hne]

/-- Claim C7 witness: on the empty document, upserting siteA then siteB
and listing yields the two records in insertion order. -/
theorem upsert_two_insertion_order_witness :
    GET (.ok ((POST (.ok ((POST (.ok ({} : Config)) siteA).snd.getD {})) siteB).snd.getD {})) =
      .ok [siteA, siteB] := by
  obtain ⟨cfg1, cfg2, h1, h2, h3⟩ :=
    upsert_two_insertion_order siteA siteB {} rfl (by decide)
  simp only [h1, h2, Option.getD_some]
  exact h3

/-! ### Claim C2 -/

/-- Claim C2 (amended): the connectivity-check handler never raises to
its caller: every outcome of the probe request is represented in the
returned result, and on any transport, timeout, authentication or
non-2xx failure it returns a single generic 500 body with connected
set to false and a fixed error message; the failure kind is not
classified in the result. -/
theorem probe_failure_flattened (outcome : ProbeOutcome) :
    ((∃ k, outcome = ProbeOutcome.failure k) →
      testConnectionPOST outcome =
        ([("connected", JVal.bool false),
          ("error", JVal.str "Failed to connect to WordPress site")], 500)) ∧
    ((testConnectionPOST outcome).fst.lookup "connected" =
      some (JVal.bool (match outcome with
        | .success _ => true
        | .failure _ => false))) := by
  constructor
  · rintro ⟨k, rfl⟩
    rfl
  · cases outcome with
    | success response => simp [testConnectionPOST]
    | failure k => simp [testConnectionPOST, List.lookup_cons]

/-- Claim C2 witness: the timeout failure is mapped to the generic 500
body with connected set to false. -/
theorem probe_failure_flattened_witness :
    testConnectionPOST (.failure .timeout) =
      ([("connected", JVal.bool false),
        ("error", JVal.str "Failed to connect to WordPress site")], 500) ∧
    (testConnectionPOST (.failure .timeout)).fst.lookup "connected" =
      some (JVal.bool false) := by
  have h := probe_failure_flattened (.failure .timeout)
  exact ⟨h.1 ⟨.timeout, rfl⟩, h.2⟩

/-- Claim C2 counterexample: the route returns the identical generic
500 body for a network, timeout, auth and http-status failure, with no
failureReason key at all, so no classified failureReason distinguishes
an unreachable host from an authentication failure or a non-success
status. -/
theorem probe_failure_unclassified_counterexample :
    testConnectionPOST (.failure .network) = testConnectionPOST (.failure .timeout) ∧
    testConnectionPOST (.failure .network) = testConnectionPOST (.failure .auth) ∧
    testConnectionPOST (.failure .network) = testConnectionPOST (.failure .httpStatus) ∧
    (testConnectionPOST (.failure .network)).fst.lookup "failureReason" = none ∧
    (testConnectionPOST (.failure .network)).fst.lookup "connected" =
      some (JVal.bool false) := by
  decide

/-! ### Claim C6 -/

/-- A concrete successful listing response: the x-wp-total header says
two posts and the listing carries two dated posts, newest first. -/
def listingEx : WpListingResponse :=
  { xWpTotal := some "2",
    data := [{ date := some "2024-05-02T10:00:00" },
             { date := some "2024-04-30T09:00:00" }] }

/-- Claim C6 (amended): on a successful probe response the handler
returns a 200 body with connected set to true, whose version key
carries the count read from the x-wp-total response header exactly when
that header is present, and whose last_post key carries the date of the
first (most recent) item of the listing when the listing is non-empty
and that date is a non-empty string, and null when the listing is
empty. -/
theorem probe_success_body (response : WpListingResponse) (total d : String)
    (p : WpPost) (rest : List WpPost) :
    (testConnectionPOST (.success response)).snd = 200 ∧
    (testConnectionPOST (.success response)).fst.lookup "connected" =
      some (JVal.bool true) ∧
    (response.xWpTotal = some total →
      (testConnectionPOST (.success response)).fst.lookup "version" =
        some (JVal.str total)) ∧
    (response.xWpTotal = none →
      (testConnectionPOST (.success response)).fst.lookup "version" = none) ∧
    (response.data = p :: rest → p.date = some d → d ≠ "" →
      (testConnectionPOST (.success response)).fst.lookup "last_post" =
        some (JVal.str d)) ∧
    (response.data = [] →
      (testConnectionPOST (.success response)).fst.lookup "last_post" =
        some JVal.null) := by
  refine ⟨rfl, ?_, ?_, ?_, ?_, ?_⟩
  · simp [testConnectionPOST]
  · intro h
    simp [testConnectionPOST, h, List.lookup_cons]
  · intro h
    simp [testConnectionPOST, h, List.lookup_cons]
  · intro hdata hdate hne
    cases h : response.xWpTotal <;>
      simp [testConnectionPOST, h, hdata, hdate, jsOrNullStr, List.lookup_cons, hne]
  · intro hdata
    cases h : response.xWpTotal <;>
      simp [testConnectionPOST, h, hdata, jsOrNullStr, List.lookup_cons]

/-- Claim C6 witness: on the concrete listing response the body is a
200 with the version key holding the header value and the last_post key
holding the newest post date. -/
theorem probe_success_body_witness :
    (testConnectionPOST (.success listingEx)).snd = 200 ∧
    (testConnectionPOST (.success listingEx)).fst.lookup "version" =
      some (JVal.str "2") ∧
    (testConnectionPOST (.success listingEx)).fst.lookup "last_post" =
      some (JVal.str "2024-05-02T10:00:00") := by
  have h := probe_success_body listingEx "2" "2024-05-02T10:00:00"
    { date := some "2024-05-02T10:00:00" } [{ date := some "2024-04-30T09:00:00" }]
  exact ⟨h.1, h.2.2.1 rfl, h.2.2.2.2.1 rfl rfl (by decide)⟩

/-- Claim C6 counterexample: on a successful response whose metadata
header is present and whose listing is non-empty, the 200 body holds no
postCount and no lastPostDate key; the count and the newest post date
are carried by keys named version and last_post instead. -/
theorem probe_success_body_keys_counterexample :
    (testConnectionPOST (.success listingEx)).snd = 200 ∧
    (testConnectionPOST (.success listingEx)).fst.lookup "connected" =
      some (JVal.bool true) ∧
    listingEx.xWpTotal = some "2" ∧
    (testConnectionPOST (.success listingEx)).fst.lookup "postCount" = none ∧
    listingEx.data ≠ [] ∧
    (testConnectionPOST (.success listingEx)).fst.lookup "lastPostDate" = none ∧
    (testConnectionPOST (.success listingEx)).fst.lookup "version" =
      some (JVal.str "2") ∧
    (testConnectionPOST (.success listingEx)).fst.lookup "last_post" =
      some (JVal.str "2024-05-02T10:00:00") := by
  decide

/-! ### Claim C8 -/

/-- Claim C8: when url, username or password of the candidate record is
empty, the addSite flow returns with only a validation-error toast: the
component state is unchanged and no HTTP call at all is issued, so
neither the probe endpoint nor any persistence endpoint is reached. -/
theorem addSite_validation_guard (st : ManagerState) (probe : WordPressSite → Bool)
    (h : st.newSite.url = "" ∨ st.newSite.username = "" ∨ st.newSite.password = "") :
    addSite st probe =
      { state := st, calls := [],
        toasts := [Toast.error "Please fill in all required fields"] } := by
  unfold addSite
  rcases h with h | h | h <;> simp [h]

/-- Claim C8 witness: a candidate with an empty password is rejected
locally with the validation toast and no call. -/
theorem addSite_validation_guard_witness :
    addSite { sites := [], newSite := { siteA with password := "" } } (fun _ => true) =
      { state := { sites := [], newSite := { siteA with password := "" } },
        calls := [],
        toasts := [Toast.error "Please fill in all required fields"] } :=
  addSite_validation_guard _ _ (Or.inr (Or.inr rfl))

/-! ### Claim C9 -/

/-- Claim C9: the addSite and removeSite flows issue no call to the
registry persistence endpoints, so replaying the calls they issue
against any persisted document leaves that document unchanged:
additions and removals made through these flows live only in the
component state. -/
theorem client_flows_no_persistence (st : ManagerState) (probe : WordPressSite → Bool)
    (url : String) (cfg : Config) :
    (∀ c ∈ (addSite st probe).calls, isRegistryCall c = false) ∧
    (∀ c ∈ (removeSite st url).calls, isRegistryCall c = false) ∧
    applyCalls cfg (addSite st probe).calls = cfg ∧
    applyCalls cfg (removeSite st url).calls = cfg := by
  unfold addSite removeSite
  by_cases h : (st.newSite.url == "" || st.newSite.username == ""
      || st.newSite.password == "") = true <;>
    simp [h, applyCalls, applyCall, isRegistryCall]

/-- Claim C9 witness: a concrete add of siteB and a concrete remove of
siteA leave a concrete persisted document untouched. -/
theorem client_flows_no_persistence_witness :
    applyCalls { wordpress_sites := some [siteA], other := [] }
      (addSite { sites := [], newSite := siteB } (fun _ => true)).calls =
      { wordpress_sites := some [siteA], other := [] } ∧
    applyCalls { wordpress_sites := some [siteA], other := [] }
      (removeSite { sites := [siteA], newSite := defaultNewSite } siteA.url).calls =
      { wordpress_sites := some [siteA], other := [] } := by
  have h1 := client_flows_no_persistence { sites := [], newSite := siteB }
    (fun _ => true) siteA.url { wordpress_sites := some [siteA], other := [] }
  have h2 := client_flows_no_persistence { sites := [siteA], newSite := defaultNewSite }
    (fun _ => true) siteA.url { wordpress_sites := some [siteA], other := [] }
  exact ⟨h1.2.2.1, h2.2.2.2⟩

/-! ### Claim C10 -/

/-- Claim C10: a successful addSite always appends the merged candidate
to the end of the in-memory list with no upsert by url: when the local
list already holds a record with the candidate url, the resulting list
holds at least two records with that url, so the client's local view
does not maintain the url-uniqueness invariant of the persisted
collection. -/
theorem addSite_appends_duplicate_url (st : ManagerState) (probe : WordPressSite → Bool)
    (s : WordPressSite) (hmem : s ∈ st.sites) (hurl : s.url = st.newSite.url)
    (hu : st.newSite.url ≠ "") (hn : st.newSite.username ≠ "")
    (hp : st.newSite.password ≠ "") :
    (addSite st probe).state.sites =
      st.sites ++ [{ st.newSite with is_connected := some (probe st.newSite) }] ∧
    2 ≤ (addSite st probe).state.sites.countP
        (fun x => x.url == st.newSite.url) := by
  have hcond : (st.newSite.url == "" || st.newSite.username == ""
      || st.newSite.password == "") = false := by
    simp [hu, hn, hp]
  have h1 : 0 < st.sites.countP (fun x => x.url == st.newSite.url) :=
    List.countP_pos_iff.mpr ⟨s, hmem, by simp [hurl]⟩
  have hsites : (addSite st probe).state.sites =
      st.sites ++ [{ st.newSite with is_connected := some (probe st.newSite) }] := by
    simp [addSite, hcond]
  refine ⟨hsites, ?_⟩
  have h2 : List.countP (fun x => x.url == st.newSite.url)
      [{ st.newSite with is_connected := some (probe st.newSite) }] = 1 := by
    simp
  rw [hsites, List.countP_append, h2]
  omega

/-- Claim C10 witness: adding a candidate equal to siteA while the
local list already holds siteA yields a list with two records carrying
the url of siteA. -/
theorem addSite_appends_duplicate_url_witness :
    (addSite { sites := [siteA], newSite := siteA } (fun _ => false)).state.sites =
      [siteA] ++ [{ siteA with is_connected := some false }] ∧
    2 ≤ (addSite { sites := [siteA], newSite := siteA } (fun _ => false)).state.sites.countP
        (fun x => x.url == siteA.url) := by
  have h := addSite_appends_duplicate_url { sites := [siteA], newSite := siteA }
    (fun _ => false) siteA (by simp) rfl (by decide) (by decide) (by decide)
  exact ⟨h.1, h.2⟩

end TikGen
